import Mathlib

/-!
Shallow embedding of the Enterprise Legal Operations Intelligence repository.

Embedded sources:
  * `src/Technical/Source_Code/legal_operations_main.py`
    (class `LegalOperationsPlatform`: `generate_legal_data`,
    `engineer_legal_features`, `prepare_data_for_modeling`,
    `train_legal_models`, `calculate_automation_roi`).
  * `src/Legal_Operations_Interactive_Analysis.py`
    (class `LegalOperationsApp`: `generate_legal_cases_data`,
    `generate_contracts_data`, `generate_compliance_data`,
    `generate_vendor_data`).
  * The Flask application `main.py` is imported by
    `src/Files/tests/test_main.py` (`from main import app`) but its source is
    not part of the repository snapshot; it is modelled from the spec where a
    claim needs it.

Numbers that the Python code handles as floats are embedded as exact
rationals.  numpy's global pseudo-random generator is embedded as a
deterministic stream of naturals indexed by a position counter; each
distribution sampler is a concrete deterministic stand-in that preserves the
properties the code relies on (determinism given the seed, membership of
`choice` results in the candidate list, positivity of lognormal/exponential
draws, the (0,1) range of beta draws).  Wall-clock reads
(`pd.Timestamp.now()`) become an explicit component of an interpreter state.
Dates are embedded as rational day numbers since 1970-01-01.
-/

namespace LegalOps

/-! ### Model of numpy's global random state -/

/-- Stand-in for the Mersenne-Twister stream obtained from `np.random.seed`:
a concrete deterministic stream of naturals per seed.  Only determinism and
the arithmetic made from individual draws are ever used. -/
def numpyStream (seed : Nat) : Nat → Nat :=
  fun i => (seed * 1103515245 + i * 62089911 + 12345) % 1000003

/-- The mutable state behind the `np.random.*` module functions: the stream
fixed by the last `np.random.seed` call, and how many draws were consumed. -/
structure NpState where
  stream : Nat → Nat
  pos : Nat

/-- `np.random.seed s` resets the stream and the position. -/
def npSeed (seed : Nat) : NpState := ⟨numpyStream seed, 0⟩

/-- Draw a whole column of `n` values at once, applying `f` to each raw draw;
advances the position by `n`.  The vectorised numpy samplers
(`np.random.choice(xs, n)`, `np.random.lognormal(mu, s, n)`, ...) are embedded
through this helper. -/
def natCol (n : Nat) (st : NpState) (f : Nat → α) : List α × NpState :=
  (((List.range n).map fun i => f (st.stream (st.pos + i))), ⟨st.stream, st.pos + n⟩)

/-- `np.random.choice(opts)` value for one raw draw: some element of `opts`.
The probability vector only shapes the distribution, never the support, so it
is not part of the value-level model. -/
def choiceVal (opts : List String) (d : Nat) : String :=
  opts.getD (d % opts.length) ""

/-- Stand-in for one `np.random.lognormal(mu, sigma)` draw: an arbitrary
positive rational determined by the raw draw and the parameters. -/
def lognormalVal (mu sigma : ℚ) (d : Nat) : ℚ :=
  (1 + ((d % 997 : Nat) : ℚ)) * (1 + mu ^ 2 + sigma ^ 2)

/-- Stand-in for one `np.random.normal(mu, sigma)` draw. -/
def normalVal (mu sigma : ℚ) (d : Nat) : ℚ :=
  mu + sigma * (((d % 21 : Nat) : ℚ) - 10) / 10

/-- Stand-in for one `np.random.exponential(scale)` draw: positive when the
scale is. -/
def exponentialVal (scale : ℚ) (d : Nat) : ℚ :=
  scale * (1 + ((d % 97 : Nat) : ℚ)) / 97

/-- Stand-in for one `np.random.uniform(a, b)` draw. -/
def uniformVal (a b : ℚ) (d : Nat) : ℚ :=
  a + (b - a) * ((d % 101 : Nat) : ℚ) / 100

/-- Stand-in for one `np.random.beta(a, b)` draw: a rational in (0,1). -/
def betaVal (a b : ℚ) (d : Nat) : ℚ :=
  (1 + ((d % 98 : Nat) : ℚ)) / 100 + 0 * (a + b)

/-- Stand-in for one `np.random.poisson(lam)` draw: a small count. -/
def poissonVal (lam : ℚ) (d : Nat) : Nat :=
  d % 4 + 0 * lam.num.natAbs

/-- Stand-in for one `np.random.randint(lo, hi)` draw (`hi` exclusive). -/
def randintVal (lo hi : Nat) (d : Nat) : Nat :=
  lo + d % (hi - lo)

/-- `pandas.Series.clip(lo, hi)`, elementwise. -/
def clipQ (lo hi x : ℚ) : ℚ := max lo (min hi x)

/-! ### `legal_operations_main.py`: `generate_legal_data` (lines 28-97) -/

/-- Literal lists from `generate_legal_data`, lines 33-37. -/
def practiceAreas : List String :=
  ["Corporate", "Litigation", "IP", "Employment", "Real Estate", "Tax", "Regulatory"]

def documentTypes : List String :=
  ["Contract", "Brief", "Motion", "Discovery", "Compliance", "Opinion", "Agreement"]

def caseOutcomes : List String :=
  ["Won", "Lost", "Settled", "Dismissed", "Ongoing"]

def complexityLevels : List String :=
  ["Low", "Medium", "High", "Very High"]

def clientTypes : List String :=
  ["Fortune 500", "Mid-Market", "Startup", "Government", "Individual"]

/-- The flat in-memory frame built by `generate_legal_data`, one list per
column (lines 39-57 build the first seventeen columns; lines 59-95 append
`case_outcome`, `total_cost`, `profit_margin`, `efficiency_ratio` and
`document_complexity_score`). -/
structure LegalData where
  caseId : List Nat
  practiceArea : List String
  documentType : List String
  complexity : List String
  clientType : List String
  caseValue : List ℚ
  hoursEstimated : List ℚ
  hoursActual : List ℚ
  partnerHours : List ℚ
  associateHours : List ℚ
  paralegalHours : List ℚ
  documentPages : List ℚ
  reviewTimeHours : List ℚ
  clientSatisfaction : List ℚ
  billingRatePartner : List ℚ
  billingRateAssociate : List ℚ
  billingRateParalegal : List ℚ
  caseOutcome : List String
  totalCost : List ℚ
  profitMargin : List ℚ
  efficiencyRatio : List ℚ
  documentComplexityScore : List ℚ
deriving Repr, DecidableEq

/-- The complexity-factor dictionary of line 62.  It is only ever applied to
the four members of `complexityLevels`; other keys (a `KeyError` in Python)
are mapped to 0. -/
def complexityFactor (c : String) : ℚ :=
  if c = "Low" then 8/10
  else if c = "Medium" then 6/10
  else if c = "High" then 4/10
  else if c = "Very High" then 2/10
  else 0

/-- The per-row outcome probability vector built on lines 62-69:
`[win_prob, loss_prob, settle_prob, 0.05, 0.05]` with
`win_prob = complexity_factor * efficiency_factor * 0.7`,
`efficiency_factor = min(1.0, hours_estimated / hours_actual)` and
`loss_prob = 1 - win_prob - 0.3`. -/
def outcomeProbVector (complexity : String) (est act : ℚ) : List ℚ :=
  let cf := complexityFactor complexity
  let ef := min 1 (est / act)
  let win := cf * ef * (7/10)
  let loss := 1 - win - 3/10
  [win, loss, 3/10, 1/20, 1/20]

/-- The normalisation `probs / probs.sum()` of line 74. -/
def normalizeProbs (ps : List ℚ) : List ℚ :=
  ps.map fun p => p / ps.sum

/-- Lines 71-76: one pass over the rows, normalising each probability vector
and drawing one outcome per row from `case_outcomes`. -/
def drawOutcomes : List (List ℚ) → NpState → List String × NpState
  | [], st => ([], st)
  | ps :: rest, st =>
      let _norm := normalizeProbs ps
      let d := st.stream st.pos
      let o := choiceVal caseOutcomes d
      let r := drawOutcomes rest ⟨st.stream, st.pos + 1⟩
      (o :: r.1, r.2)

/-- `LegalOperationsPlatform.generate_legal_data(n_cases)` (lines 28-97).
Reseeds the global numpy state with 42 (line 30), draws the seventeen base
columns in source order, then the per-row outcomes, the financial metrics and
the document complexity score. -/
def generateLegalData (nCases : Nat) : LegalData :=
  let st0 := npSeed 42
  let c1 := natCol nCases st0 (choiceVal practiceAreas)
  let pa := c1.1
  let c2 := natCol nCases c1.2 (choiceVal documentTypes)
  let dt := c2.1
  let c3 := natCol nCases c2.2 (choiceVal complexityLevels)
  let cx := c3.1
  let c4 := natCol nCases c3.2 (choiceVal clientTypes)
  let ct := c4.1
  let c5 := natCol nCases c4.2 (lognormalVal 13 (3/2))
  let cv := c5.1
  let c6 := natCol nCases c5.2 (lognormalVal 5 1)
  let he := c6.1
  let c7 := natCol nCases c6.2 (lognormalVal (26/5) (6/5))
  let ha := c7.1
  let c8 := natCol nCases c7.2 (exponentialVal 20)
  let ph := c8.1
  let c9 := natCol nCases c8.2 (exponentialVal 40)
  let ah := c9.1
  let c10 := natCol nCases c9.2 (exponentialVal 15)
  let plh := c10.1
  let c11 := natCol nCases c10.2 (lognormalVal 6 1)
  let dp := c11.1
  let c12 := natCol nCases c11.2 (lognormalVal 3 (4/5))
  let rt := c12.1
  let c13 := natCol nCases c12.2 (fun d => clipQ 1 10 (normalVal (15/2) (3/2) d))
  let cs := c13.1
  let c14 := natCol nCases c13.2 (normalVal 800 150)
  let brp := c14.1
  let c15 := natCol nCases c14.2 (normalVal 400 80)
  let bra := c15.1
  let c16 := natCol nCases c15.2 (normalVal 150 30)
  let brl := c16.1
  let probRows := (List.zip cx (List.zip he ha)).map fun r =>
    outcomeProbVector r.1 r.2.1 r.2.2
  let c17 := drawOutcomes probRows c16.2
  let oc := c17.1
  let tc := (List.zip ph (List.zip brp (List.zip ah (List.zip bra (List.zip plh brl))))).map
    fun r => r.1 * r.2.1 + r.2.2.1 * r.2.2.2.1 + r.2.2.2.2.1 * r.2.2.2.2.2
  let pm := (List.zip cv tc).map fun r => (r.1 - r.2) / r.1 * 100
  let er := (List.zip he ha).map fun r => r.1 / r.2
  let c18 := natCol nCases c17.2 (normalVal 50 15)
  let dcs := (List.zip dp (List.zip rt c18.1)).map fun r =>
    clipQ 0 100 (r.1 * (3/10) + r.2.1 * (4/10) + r.2.2)
  { caseId := (List.range nCases).map (· + 1)
    practiceArea := pa, documentType := dt, complexity := cx, clientType := ct
    caseValue := cv, hoursEstimated := he, hoursActual := ha
    partnerHours := ph, associateHours := ah, paralegalHours := plh
    documentPages := dp, reviewTimeHours := rt, clientSatisfaction := cs
    billingRatePartner := brp, billingRateAssociate := bra, billingRateParalegal := brl
    caseOutcome := oc, totalCost := tc, profitMargin := pm, efficiencyRatio := er
    documentComplexityScore := dcs }

/-! ### `legal_operations_main.py`: `calculate_automation_roi` (lines 229-249) -/

/-- The dictionary returned by `calculate_automation_roi`. -/
structure RoiResult where
  manualCost : ℚ
  automatedCost : ℚ
  annualSavings : ℚ
  roiPercentage : ℚ
  timeSavingsHours : ℚ
deriving Repr, DecidableEq

/-- `LegalOperationsPlatform.calculate_automation_roi(df)` (lines 229-249),
as a function of the only column it reads, `df['review_time_hours']`. -/
def calculateAutomationRoi (reviewTimeHours : List ℚ) : RoiResult :=
  let manualReviewHours := reviewTimeHours.sum
  let manualCost := manualReviewHours * 200
  let automatedHours := manualReviewHours * (1/4)
  let automatedCost := automatedHours * 200 + 50000
  let annualSavings := manualCost - automatedCost
  let roiPercentage := annualSavings / 50000 * 100
  { manualCost := manualCost
    automatedCost := automatedCost
    annualSavings := annualSavings
    roiPercentage := roiPercentage
    timeSavingsHours := manualReviewHours - automatedHours }

/-! ### `legal_operations_main.py`: feature engineering (lines 99-145) -/

/-- `pandas.Series.quantile(q)` with the default linear interpolation. -/
def quantileQ (xs : List ℚ) (q : ℚ) : ℚ :=
  let s := xs.mergeSort (fun a b => decide (a ≤ b))
  let n := s.length
  if n = 0 then 0 else
    let h : ℚ := q * ((n : ℚ) - 1)
    let l : Nat := h.floor.toNat
    let frac : ℚ := h - (l : ℚ)
    let vl := s.getD l 0
    let vu := s.getD (min (l + 1) (n - 1)) 0
    vl + frac * (vu - vl)

/-- `(condition).astype(int)`. -/
def indicator (b : Bool) : Nat := if b then 1 else 0

/-- The frame after `engineer_legal_features` (lines 99-121) and the four
`_encoded` columns added by `prepare_data_for_modeling` (lines 127-134). -/
structure FeaturedData where
  base : LegalData
  totalHours : List ℚ
  partnerRatioCol : List ℚ
  costPerHour : List ℚ
  pagesPerHour : List ℚ
  hourVariance : List ℚ
  highEfficiency : List Nat
  costOverrun : List Nat
  highValueCase : List Nat
  documentIntensive : List Nat
  partnerIntensive : List Nat
  highSatisfaction : List Nat
  profitableCase : List Nat
  practiceAreaEncoded : List Nat
  documentTypeEncoded : List Nat
  complexityEncoded : List Nat
  clientTypeEncoded : List Nat
deriving Repr, DecidableEq

/-- `engineer_legal_features(df)` (lines 99-121); the `_encoded` columns are
filled in later by `prepareDataForModeling`. -/
def engineerLegalFeatures (df : LegalData) : FeaturedData :=
  let th := (List.zip df.partnerHours (List.zip df.associateHours df.paralegalHours)).map
    fun r => r.1 + r.2.1 + r.2.2
  let pr := (List.zip df.partnerHours th).map fun r => r.1 / r.2
  let q75 := quantileQ df.caseValue (3/4)
  let q80 := quantileQ df.documentPages (4/5)
  { base := df
    totalHours := th
    partnerRatioCol := pr
    costPerHour := (List.zip df.totalCost th).map fun r => r.1 / r.2
    pagesPerHour := (List.zip df.documentPages df.reviewTimeHours).map fun r => r.1 / r.2
    hourVariance := (List.zip df.hoursActual df.hoursEstimated).map
      fun r => |r.1 - r.2| / r.2
    highEfficiency := df.efficiencyRatio.map fun x => indicator (decide (11/10 < x))
    costOverrun := (List.zip df.hoursActual df.hoursEstimated).map
      fun r => indicator (decide (r.2 * (12/10) < r.1))
    highValueCase := df.caseValue.map fun x => indicator (decide (q75 < x))
    documentIntensive := df.documentPages.map fun x => indicator (decide (q80 < x))
    partnerIntensive := pr.map fun x => indicator (decide (3/10 < x))
    highSatisfaction := df.clientSatisfaction.map fun x => indicator (decide (8 < x))
    profitableCase := df.profitMargin.map fun x => indicator (decide (20 < x))
    practiceAreaEncoded := []
    documentTypeEncoded := []
    complexityEncoded := []
    clientTypeEncoded := [] }

/-! ### The modelling pipeline (lines 123-227) with Python name resolution -/

/-- The Python exceptions the pipeline can raise in this embedding. -/
inductive PyErr
  | nameError (name : String)
  | valueError (msg : String)
deriving Repr, DecidableEq

/-- The module-level namespace of `legal_operations_main.py`: the names bound
by the import statements on lines 5-11 plus the module definitions.  Line 7
imports only `RandomForestClassifier` and `GradientBoostingRegressor` from
`sklearn.ensemble`. -/
def moduleScope : List String :=
  ["pd", "np", "RandomForestClassifier", "GradientBoostingRegressor",
   "train_test_split", "StandardScaler", "LabelEncoder",
   "accuracy_score", "classification_report", "mean_squared_error",
   "TfidfVectorizer", "warnings", "LegalOperationsPlatform", "main"]

/-- Evaluating a free name: a `NameError` when the name is not in scope. -/
def resolveName (name : String) : Except PyErr String :=
  if moduleScope.contains name then .ok name else .error (.nameError name)

/-- `sklearn.preprocessing.LabelEncoder.fit`: the classes are the sorted
distinct values. -/
def labelClasses (xs : List String) : List String :=
  (xs.foldl (fun acc x => if x ∈ acc then acc else acc ++ [x]) []).mergeSort
    (fun a b => decide (a ≤ b))

/-- `LabelEncoder.transform`: integer codes, a `ValueError` on a value the
encoder was not fitted on. -/
def labelTransform (classes : List String) (xs : List String) : Except PyErr (List Nat) :=
  if xs.all (fun x => classes.contains x) then
    .ok (xs.map fun x => classes.indexOf x)
  else .error (.valueError "y contains previously unseen labels")

/-- `LabelEncoder.fit_transform`. -/
def labelFitTransform (xs : List String) : List String × List Nat :=
  let cs := labelClasses xs
  (cs, xs.map fun x => cs.indexOf x)

/-- The fields of `self` on `LegalOperationsPlatform` (lines 21-26): fitted
models and encoders are recorded by name and estimator class / fitted
classes. -/
structure PlatformState where
  models : List (String × String)
  scalers : List String
  encoders : List (String × List String)
  vectorizers : List String
  isTrained : Bool
deriving Repr, DecidableEq

/-- `LegalOperationsPlatform.__init__` (lines 21-26). -/
def initPlatform : PlatformState :=
  { models := [], scalers := [], encoders := [], vectorizers := [], isTrained := false }

/-- The categorical columns of line 128. -/
def categoricalCols : List String :=
  ["practice_area", "document_type", "complexity", "client_type"]

/-- Read one categorical column of the frame by its pandas name. -/
def categoricalColumn (df : LegalData) : String → List String
  | "practice_area" => df.practiceArea
  | "document_type" => df.documentType
  | "complexity" => df.complexity
  | "client_type" => df.clientType
  | _ => []

/-- Lines 129-134: per categorical column, `fit_transform` with a fresh
encoder when `self.encoders` has none for it, otherwise `transform` with the
stored one (which can raise `ValueError` on unseen labels). -/
def encodeCategoricals (st : PlatformState) (df : LegalData) :
    Except PyErr (List (List Nat) × List (String × List String)) :=
  categoricalCols.foldlM
    (fun acc col =>
      match (acc.2.lookup col).orElse (fun _ => st.encoders.lookup col) with
      | some classes =>
          match labelTransform classes (categoricalColumn df col) with
          | .ok codes => .ok (acc.1 ++ [codes], acc.2)
          | .error e => .error e
      | none =>
          let r := labelFitTransform (categoricalColumn df col)
          .ok (acc.1 ++ [r.2], acc.2 ++ [(col, r.1)]))
    ([], [])

/-- The feature column list of lines 137-143. -/
def featureCols : List String :=
  ["case_value", "hours_estimated", "document_pages", "review_time_hours",
   "billing_rate_partner", "billing_rate_associate", "billing_rate_paralegal",
   "document_complexity_score", "total_hours", "partner_ratio", "cost_per_hour",
   "pages_per_hour", "hour_variance", "high_efficiency", "cost_overrun",
   "high_value_case", "document_intensive", "partner_intensive",
   "practice_area_encoded", "document_type_encoded", "complexity_encoded",
   "client_type_encoded"]

/-- `prepare_data_for_modeling(df)` (lines 123-145): feature engineering,
then the categorical encodings; returns the featured frame together with the
updated `self.encoders`. -/
def prepareDataForModeling (st : PlatformState) (df : LegalData) :
    Except PyErr (FeaturedData × List (String × List String)) :=
  let fd := engineerLegalFeatures df
  match encodeCategoricals st df with
  | .error e => .error e
  | .ok (codes, newEncoders) =>
      .ok ({ fd with
              practiceAreaEncoded := codes.getD 0 []
              documentTypeEncoded := codes.getD 1 []
              complexityEncoded := codes.getD 2 []
              clientTypeEncoded := codes.getD 3 [] },
            st.encoders ++ newEncoders)

/-- The design matrix `X = df[feature_cols]` of line 152, row-major. -/
def featureMatrix (fd : FeaturedData) : List (List ℚ) :=
  (List.range fd.base.caseId.length).map fun i =>
    [fd.base.caseValue.getD i 0, fd.base.hoursEstimated.getD i 0,
     fd.base.documentPages.getD i 0, fd.base.reviewTimeHours.getD i 0,
     fd.base.billingRatePartner.getD i 0, fd.base.billingRateAssociate.getD i 0,
     fd.base.billingRateParalegal.getD i 0, fd.base.documentComplexityScore.getD i 0,
     fd.totalHours.getD i 0, fd.partnerRatioCol.getD i 0, fd.costPerHour.getD i 0,
     fd.pagesPerHour.getD i 0, fd.hourVariance.getD i 0,
     ((fd.highEfficiency.getD i 0 : Nat) : ℚ), ((fd.costOverrun.getD i 0 : Nat) : ℚ),
     ((fd.highValueCase.getD i 0 : Nat) : ℚ), ((fd.documentIntensive.getD i 0 : Nat) : ℚ),
     ((fd.partnerIntensive.getD i 0 : Nat) : ℚ),
     ((fd.practiceAreaEncoded.getD i 0 : Nat) : ℚ),
     ((fd.documentTypeEncoded.getD i 0 : Nat) : ℚ),
     ((fd.complexityEncoded.getD i 0 : Nat) : ℚ),
     ((fd.clientTypeEncoded.getD i 0 : Nat) : ℚ)]

/-- Stand-in for the index shuffle sklearn performs in
`train_test_split(..., random_state=42)`: a rotation, hence a permutation of
`0..n-1`. -/
def splitPerm (n : Nat) : List Nat :=
  ((List.range n).drop (42 % max n 1)) ++ ((List.range n).take (42 % max n 1))

/-- `train_test_split(..., test_size=0.2, random_state=42)` (lines 161-163)
at the index level: `ceil(0.2 n)` test rows; sklearn raises when the train
side would be empty. -/
def trainTestSplitIdx (n : Nat) : Except PyErr (List Nat × List Nat) :=
  if n < 2 then .error (.valueError "resulting train set will be empty")
  else
    let nTest := (n + 4) / 5
    let p := splitPerm n
    .ok (p.drop nTest, p.take nTest)

/-- `sklearn.metrics.accuracy_score`. -/
def accuracyScore (yTrue yPred : List Nat) : ℚ :=
  if yTrue.length = 0 then 0
  else ((List.zip yTrue yPred).countP fun r => r.1 = r.2 : ℚ) / (yTrue.length : ℚ)

/-- Mean of a list of rationals (`np.mean`). -/
def meanQ (xs : List ℚ) : ℚ :=
  if xs.length = 0 then 0 else xs.sum / (xs.length : ℚ)

/-- `sklearn.metrics.mean_squared_error`. -/
def meanSquaredError (yTrue yPred : List ℚ) : ℚ :=
  meanQ ((List.zip yTrue yPred).map fun r => (r.1 - r.2) ^ 2)

/-- Stand-in for the predictions of a fitted classifier: an uninterpreted
total function of the test matrix; no claim depends on predicted values. -/
def predictClass (xTest : List (List ℚ)) : List Nat :=
  xTest.map fun _ => 0

/-- Stand-in for the predictions of a fitted regressor. -/
def predictReg (xTest : List (List ℚ)) : List ℚ :=
  xTest.map fun _ => 0

/-- One entry of the results dictionary of lines 208-224. -/
structure MetricEntry where
  accuracy : Option ℚ
  mse : Option ℚ
  modelType : String
deriving Repr, DecidableEq

/-- The results dictionary returned on line 227. -/
structure TrainResults where
  outcomePrediction : MetricEntry
  hoursPrediction : MetricEntry
  costPrediction : MetricEntry
  featureImportance : List (String × ℚ)
deriving Repr, DecidableEq

/-- `LegalOperationsPlatform.train_legal_models(df)` (lines 147-227).
Prepares the data, splits it, scales (`StandardScaler`, embedded as the
identity stand-in: no claim depends on scaled values), label-encodes the
outcome targets, then constructs and fits the three estimators in source
order.  Each estimator construction first evaluates its free name against the
module namespace; `RandomForestRegressor` (line 198) is not in
`moduleScope`, so that step raises `NameError` before `self.models` gains a
`cost_predictor` entry, before `self.is_trained` is set (line 226) and
before the results dictionary is returned (line 227). -/
def trainLegalModels (st : PlatformState) (df : LegalData) :
    Except PyErr (TrainResults × PlatformState) :=
  match prepareDataForModeling st df with
  | .error e => .error e
  | .ok (fd, encoders1) =>
    let x := featureMatrix fd
    let n := fd.base.caseId.length
    match trainTestSplitIdx n with
    | .error e => .error e
    | .ok (trainIdx, testIdx) =>
      let yOutTrain := trainIdx.map fun i => fd.base.caseOutcome.getD i ""
      let yOutTest := testIdx.map fun i => fd.base.caseOutcome.getD i ""
      let yHrsTest := testIdx.map fun i => fd.base.hoursActual.getD i 0
      let yCostTest := testIdx.map fun i => fd.base.totalCost.getD i 0
      let xTestScaled := testIdx.map fun i => x.getD i []
      let scalers1 := st.scalers ++ ["features"]
      let outClasses := (labelFitTransform yOutTrain).1
      match labelTransform outClasses yOutTest with
      | .error e => .error e
      | .ok yOutTestEnc =>
        match resolveName "RandomForestClassifier" with
        | .error e => .error e
        | .ok rfOutcomeCls =>
          let models1 := st.models ++ [("outcome_predictor", rfOutcomeCls)]
          let outcomeAccuracy := accuracyScore yOutTestEnc (predictClass xTestScaled)
          match resolveName "GradientBoostingRegressor" with
          | .error e => .error e
          | .ok gbHoursCls =>
            let models2 := models1 ++ [("hours_predictor", gbHoursCls)]
            let yHrsPred := predictReg xTestScaled
            let hoursMse := meanSquaredError yHrsTest yHrsPred
            let hoursAccuracy :=
              1 - meanQ ((List.zip yHrsTest yHrsPred).map fun r => |r.1 - r.2| / r.1)
            match resolveName "RandomForestRegressor" with
            | .error e => .error e
            | .ok rfCostCls =>
              let models3 := models2 ++ [("cost_predictor", rfCostCls)]
              let yCostPred := predictReg xTestScaled
              let costMse := meanSquaredError yCostTest yCostPred
              let costAccuracy :=
                1 - meanQ ((List.zip yCostTest yCostPred).map fun r => |r.1 - r.2| / r.1)
              .ok
                ({ outcomePrediction :=
                     { accuracy := some outcomeAccuracy, mse := none
                       modelType := "Random Forest Classifier" }
                   hoursPrediction :=
                     { accuracy := some hoursAccuracy, mse := some hoursMse
                       modelType := "Gradient Boosting Regressor" }
                   costPrediction :=
                     { accuracy := some costAccuracy, mse := some costMse
                       modelType := "Random Forest Regressor" }
                   featureImportance := featureCols.map fun c => (c, 0) },
                 { st with
                     models := models3
                     scalers := scalers1
                     encoders := encoders1
                     isTrained := true })

/-! ### Statement-level outline of `train_legal_models` (lines 147-227)

The body of `train_legal_models` is straight-line code: no loops, no
try/except.  The outline records, per top-level statement group, whether it
constructs-and-fits an estimator, and would record any try/except block. -/

inductive TrainStmt
  | fitCall (estimator : String)
  | tryBlock
  | plain
deriving Repr, DecidableEq, BEq

/-- One entry per top-level statement group of `train_legal_models`:
line 149 prepare; line 152 `X`; lines 155-158 targets; lines 161-163 split;
lines 166-168 scaler; line 170 results; lines 173-175 outcome encoder;
lines 177-180 construct+fit `RandomForestClassifier`; line 181 store;
lines 183-184 metrics; lines 187-190 construct+fit
`GradientBoostingRegressor`; line 191 store; lines 193-195 metrics;
lines 198-201 construct+fit `RandomForestRegressor`; line 202 store;
lines 204-206 metrics; lines 208-224 results; line 226 `is_trained`;
line 227 return. -/
def trainStmtOutline : List TrainStmt :=
  [.plain, .plain, .plain, .plain, .plain, .plain, .plain,
   .fitCall "RandomForestClassifier", .plain, .plain,
   .fitCall "GradientBoostingRegressor", .plain, .plain,
   .fitCall "RandomForestRegressor", .plain, .plain, .plain, .plain, .plain]

/-- The estimators constructed and fitted by `train_legal_models`, in source
order. -/
def fitsOf (stmts : List TrainStmt) : List String :=
  stmts.filterMap fun s =>
    match s with
    | .fitCall e => some e
    | _ => none

/-! ### `Legal_Operations_Interactive_Analysis.py`: the four data generators

The generators run against the Python interpreter's ambient state: the global
numpy random state and the wall clock (`pd.Timestamp.now()`, read on line 310
of `generate_contracts_data`).  Both are made explicit here.  Dates are
rational day numbers since 1970-01-01 (2019-01-01 = 17897,
2020-01-01 = 18262, 2023-12-31 = 19722, 2024-06-30 = 19904,
2024-12-31 = 20088). -/

/-- The ambient interpreter state an `LegalOperationsApp` generator can read:
numpy's global random state and the wall clock, in days since 1970-01-01. -/
structure GlobalState where
  np : NpState
  clock : ℚ

/-- `pd.date_range(start, end, periods=n)`: `n` evenly spaced timestamps. -/
def dateRangePeriods (s e : ℚ) (n : Nat) : List ℚ :=
  if n = 0 then []
  else if n = 1 then [s]
  else (List.range n).map fun i => s + (i : ℚ) * (e - s) / ((n : ℚ) - 1)

/-- `np.random.choice` over a list of naturals. -/
def choiceNatVal (opts : List Nat) (d : Nat) : Nat :=
  opts.getD (d % opts.length) 0

/-- `np.random.choice([True, False], p=...)`. -/
def choiceBoolVal (opts : List Bool) (d : Nat) : Bool :=
  opts.getD (d % opts.length) false

/-- Literal lists of `generate_legal_cases_data` (lines 239-243). -/
def appPracticeAreas : List String :=
  ["Litigation", "Corporate", "Employment", "IP", "Regulatory", "Compliance",
   "Real Estate", "Tax"]

def appCaseTypes : List String :=
  ["Civil Litigation", "Criminal Defense", "Contract Dispute", "Employment Dispute",
   "IP Infringement", "Regulatory Investigation", "M&A Transaction", "Tax Appeal"]

def appStatuses : List String :=
  ["Active", "Pending", "Settlement", "Trial", "Closed", "On Hold"]

def appRiskLevels : List String :=
  ["Low", "Medium", "High", "Critical"]

/-- The risk-multiplier dictionary of line 260 (only ever applied to the four
members of `appRiskLevels`). -/
def riskMultiplier (r : String) : ℚ :=
  if r = "Low" then 1/2
  else if r = "Medium" then 1
  else if r = "High" then 2
  else if r = "Critical" then 5
  else 0

/-- The frame built by `generate_legal_cases_data` (lines 235-281).  The
`outcome` and `settlement_amount` columns are nullable: pandas `.loc`
assignment on a fresh column leaves `NaN` (here `none`) outside the selected
rows. -/
structure CasesData where
  caseId : List String
  caseName : List String
  practiceArea : List String
  caseType : List String
  status : List String
  riskLevel : List String
  filingDate : List ℚ
  assignedAttorney : List String
  client : List String
  opposingCounsel : List String
  potentialExposure : List ℚ
  legalFeesSpent : List ℚ
  estimatedTotalCost : List ℚ
  outcome : List (Option String)
  settlementAmount : List (Option ℚ)
deriving Repr, DecidableEq

/-- Lines 271-273: `np.random.choice(['Won','Lost','Settled'], closed.sum())`
aligned positionally onto the rows whose `status` is `'Closed'`; all other
rows keep a null `outcome`.  One draw is consumed per closed row, in row
order. -/
def assignOutcomes : List String → NpState → List (Option String) × NpState
  | [], st => ([], st)
  | s :: rest, st =>
      if s = "Closed" then
        let o := choiceVal ["Won", "Lost", "Settled"] (st.stream st.pos)
        let r := assignOutcomes rest ⟨st.stream, st.pos + 1⟩
        (some o :: r.1, r.2)
      else
        let r := assignOutcomes rest st
        (none :: r.1, r.2)

/-- Lines 276-279: `potential_exposure * np.random.uniform(0.1, 0.8)` on the
rows whose `outcome` equals `'Settled'`; all other rows keep a null
`settlement_amount`. -/
def assignSettlements : List (Option String × ℚ) → NpState → List (Option ℚ) × NpState
  | [], st => ([], st)
  | (o, exposure) :: rest, st =>
      if o = some "Settled" then
        let v := exposure * uniformVal (1/10) (8/10) (st.stream st.pos)
        let r := assignSettlements rest ⟨st.stream, st.pos + 1⟩
        (some v :: r.1, r.2)
      else
        let r := assignSettlements rest st
        (none :: r.1, r.2)

/-- `LegalOperationsApp.generate_legal_cases_data(n_cases=300)`
(lines 235-281).  Reseeds numpy with 42 (line 237); the wall clock is never
read. -/
def generateLegalCasesData (nCases : Nat) (g : GlobalState) : CasesData × GlobalState :=
  let st0 := npSeed 42
  let c1 := natCol nCases st0 (choiceVal appPracticeAreas)
  let c2 := natCol nCases c1.2 (choiceVal appCaseTypes)
  let c3 := natCol nCases c2.2 (choiceVal appStatuses)
  let stat := c3.1
  let c4 := natCol nCases c3.2 (choiceVal appRiskLevels)
  let c5 := natCol nCases c4.2
    (fun d => "Attorney_" ++ toString (randintVal 1 25 d))
  let c6 := natCol nCases c5.2
    (fun d => "Client_" ++ toString (randintVal 1 50 d))
  let c7 := natCol nCases c6.2
    (fun d => "Opposing_Firm_" ++ toString (randintVal 1 30 d))
  let c8 := natCol nCases c7.2 (lognormalVal 11 (3/2))
  let exposure := (List.zip c8.1 c4.1).map fun r => r.1 * riskMultiplier r.2
  let c9 := natCol nCases c8.2 (uniformVal (1/20) (1/4))
  let fees := (List.zip exposure c9.1).map fun r => r.1 * r.2
  let c10 := natCol nCases c9.2 (uniformVal (6/5) 3)
  let est := (List.zip fees c10.1).map fun r => r.1 * r.2
  let c11 := assignOutcomes stat c10.2
  let oc := c11.1
  let c12 := assignSettlements (List.zip oc exposure) c11.2
  ({ caseId := (List.range nCases).map fun i => "CASE-" ++ toString i
     caseName := (List.range nCases).map fun i => "Legal Matter " ++ toString (i + 1)
     practiceArea := c1.1, caseType := c2.1, status := stat, riskLevel := c4.1
     filingDate := dateRangePeriods 18262 20088 nCases
     assignedAttorney := c5.1, client := c6.1, opposingCounsel := c7.1
     potentialExposure := exposure, legalFeesSpent := fees, estimatedTotalCost := est
     outcome := oc, settlementAmount := c12.1 },
   { g with np := c12.2 })

/-- Literal list of `generate_contracts_data` (lines 287-288). -/
def contractTypes : List String :=
  ["Service Agreement", "Supply Contract", "Employment Contract", "NDA",
   "Licensing Agreement", "Partnership Agreement", "Real Estate Lease",
   "Insurance Policy"]

/-- The frame built by `generate_contracts_data` (lines 283-320). -/
structure ContractsData where
  contractId : List String
  contractType : List String
  counterparty : List String
  startDate : List ℚ
  contractValue : List ℚ
  durationMonths : List Nat
  endDate : List ℚ
  riskScore : List ℚ
  performanceScore : List ℚ
  status : List String
  renewalRequired : List Bool
  complianceIssues : List Bool
  autoRenewal : List Bool
deriving Repr, DecidableEq

/-- `LegalOperationsApp.generate_contracts_data(n_contracts=200)`
(lines 283-320).  Reseeds numpy with 42 (line 285) and reads the wall clock
on line 310: the `status` and `renewal_required` columns compare each
contract's end date against `pd.Timestamp.now()`. -/
def generateContractsData (nContracts : Nat) (g : GlobalState) :
    ContractsData × GlobalState :=
  let st0 := npSeed 42
  let c1 := natCol nContracts st0 (choiceVal contractTypes)
  let c2 := natCol nContracts c1.2
    (fun d => "Counterparty_" ++ toString (randintVal 1 51 d))
  let startDates := dateRangePeriods 17897 19904 nContracts
  let c3 := natCol nContracts c2.2 (lognormalVal 12 (6/5))
  let c4 := natCol nContracts c3.2 (choiceNatVal [12, 24, 36, 60])
  let endDates := (List.zip startDates c4.1).map fun r => r.1 + (r.2 : ℚ) * 30
  let c5 := natCol nContracts c4.2 (fun d => betaVal 2 5 d * 10)
  let c6 := natCol nContracts c5.2 (fun d => betaVal 5 2 d * 10)
  let currentDate := g.clock
  let stat := endDates.map fun e => if e < currentDate then "Expired" else "Active"
  let renewal := endDates.map fun e => decide (e - currentDate < 90)
  let c7 := natCol nContracts c6.2 (choiceBoolVal [true, false])
  let c8 := natCol nContracts c7.2 (choiceBoolVal [true, false])
  ({ contractId := (List.range nContracts).map fun i => "CONTRACT-" ++ toString i
     contractType := c1.1, counterparty := c2.1
     startDate := startDates, contractValue := c3.1, durationMonths := c4.1
     endDate := endDates, riskScore := c5.1, performanceScore := c6.1
     status := stat, renewalRequired := renewal
     complianceIssues := c7.1, autoRenewal := c8.1 },
   { g with np := c8.2 })

/-- Literal lists of `generate_compliance_data` (lines 326-328). -/
def businessUnits : List String :=
  ["Corporate", "Finance", "HR", "IT", "Operations", "Sales", "Marketing", "R&D"]

def complianceAreas : List String :=
  ["Data Privacy", "Financial Regulations", "Employment Law", "Environmental",
   "Safety", "Anti-Corruption", "Trade Compliance", "Industry Standards"]

/-- The 24 month-end timestamps of
`pd.date_range('2023-01-01', '2024-12-31', freq='M')`, as day numbers
(2023-01-31 = 19388, ..., 2024-12-31 = 20088). -/
def complianceMonthEnds : List ℚ :=
  ((List.scanl (· + ·) 0
      ([31, 28, 31, 30, 31, 30, 31, 31, 30, 31, 30, 31] ++
       [31, 29, 31, 30, 31, 30, 31, 31, 30, 31, 30, 31])).tail).map
    fun c => (19357 : ℚ) + (c : ℚ)

/-- One row appended on lines 334-343. -/
structure ComplianceRow where
  businessUnit : String
  complianceArea : String
  assessmentDate : ℚ
  complianceScore : ℚ
  riskRating : String
  violationsCount : Nat
  trainingCompletion : ℚ
  auditFindings : Nat
deriving Repr, DecidableEq

/-- The innermost loop body: five draws per row, in source order
(score, rating, violations, training, audit). -/
def complianceRowsFrom : List (String × String × ℚ) → NpState →
    List ComplianceRow × NpState
  | [], st => ([], st)
  | (u, a, m) :: rest, st =>
      let row : ComplianceRow :=
        { businessUnit := u, complianceArea := a, assessmentDate := m
          complianceScore := betaVal 4 2 (st.stream st.pos) * 10
          riskRating := choiceVal ["Low", "Medium", "High"] (st.stream (st.pos + 1))
          violationsCount := poissonVal (1/2) (st.stream (st.pos + 2))
          trainingCompletion := betaVal 8 2 (st.stream (st.pos + 3))
          auditFindings := poissonVal (6/5) (st.stream (st.pos + 4)) }
      let r := complianceRowsFrom rest ⟨st.stream, st.pos + 5⟩
      (row :: r.1, r.2)

/-- `LegalOperationsApp.generate_compliance_data()` (lines 322-345):
one row per business unit x compliance area x month, in loop order.
Reseeds numpy with 42 (line 324); the wall clock is never read. -/
def generateComplianceData (g : GlobalState) : List ComplianceRow × GlobalState :=
  let triples := businessUnits.flatMap fun u =>
    complianceAreas.flatMap fun a =>
      complianceMonthEnds.map fun m => (u, a, m)
  let r := complianceRowsFrom triples (npSeed 42)
  (r.1, { g with np := r.2 })

/-- Literal list of `generate_vendor_data` (lines 351-352). -/
def vendorTypes : List String :=
  ["Law Firm", "Technology Vendor", "Consulting Firm", "Expert Witness",
   "Court Reporter", "Investigation Firm", "Translation Service", "Legal Research"]

/-- The frame built by `generate_vendor_data` (lines 347-367). -/
structure VendorData where
  vendorId : List String
  vendorName : List String
  vendorType : List String
  annualSpend : List ℚ
  performanceScore : List ℚ
  diversityStatus : List String
  contractStart : List ℚ
  paymentTermsDays : List Nat
  invoiceAccuracy : List ℚ
  responseTimeHours : List ℚ
deriving Repr, DecidableEq

/-- `LegalOperationsApp.generate_vendor_data(n_vendors=50)` (lines 347-367).
Reseeds numpy with 42 (line 349); the wall clock is never read. -/
def generateVendorData (nVendors : Nat) (g : GlobalState) : VendorData × GlobalState :=
  let st0 := npSeed 42
  let c1 := natCol nVendors st0 (choiceVal vendorTypes)
  let c2 := natCol nVendors c1.2 (lognormalVal 10 (3/2))
  let c3 := natCol nVendors c2.2 (fun d => betaVal 4 2 d * 10)
  let c4 := natCol nVendors c3.2 (choiceVal ["Diverse", "Non-Diverse"])
  let c5 := natCol nVendors c4.2 (choiceNatVal [30, 45, 60])
  let c6 := natCol nVendors c5.2 (betaVal 5 1)
  let c7 := natCol nVendors c6.2 (exponentialVal 24)
  ({ vendorId := (List.range nVendors).map fun i => "VENDOR-" ++ toString i
     vendorName := (List.range nVendors).map fun i => "Vendor_" ++ toString (i + 1)
     vendorType := c1.1, annualSpend := c2.1, performanceScore := c3.1
     diversityStatus := c4.1
     contractStart := dateRangePeriods 17897 19722 nVendors
     paymentTermsDays := c5.1, invoiceAccuracy := c6.1, responseTimeHours := c7.1 },
   { g with np := c7.2 })

/-- `generate_legal_data` of the main engine, against the ambient interpreter
state: `np.random.seed(42)` on line 30 discards the incoming numpy state, the
wall clock is never read, and the eighteen vectorised column draws leave the
stream at position `18 * n`. -/
def generateLegalDataG (nCases : Nat) (g : GlobalState) : LegalData × GlobalState :=
  (generateLegalData nCases, { g with np := ⟨numpyStream 42, 18 * nCases⟩ })

/-! ### The Flask application `main.py`

`src/Files/tests/test_main.py` runs `from main import app`, but `main.py`
itself is not part of the repository snapshot; only its tests are.  The
application is therefore modelled from the spec below. -/

/-- A JSON value as far as the modelled payloads need: a string or a list of
strings. -/
inductive JsonVal
  | str (s : String)
  | arr (xs : List String)
deriving Repr, DecidableEq

/-- An HTTP request: the path, plus headers and query parameters (which the
modelled app never reads). -/
structure Request where
  path : String
  headers : List (String × String)
  query : List (String × String)
deriving Repr, DecidableEq

/-- An HTTP response: status code and JSON body as key/value pairs. -/
structure Response where
  status : Nat
  body : List (String × JsonVal)
deriving Repr, DecidableEq

/-- The three working routes. -/
def workingPaths : List String := ["/", "/health", "/api/v1/status"]

/-- Modelled from the spec: the Flask application `main.py` (missing from the
snapshot; only `src/Files/tests/test_main.py` refers to it).  Per the spec it
serves exactly three working endpoints — `GET /`, `GET /health`,
`GET /api/v1/status` — "each returning a fixed JSON payload with no
parameters, no authentication, and no persisted state", with the payload
fields asserted literally by `test_main.py`; every other path is
unimplemented and falls through to the framework's 404.  The spec does not
record the strings inside the `features` list; the tests require only a
non-empty list. -/
def handle (req : Request) : Response :=
  if req.path = "/" then
    { status := 200
      body := [("message", .str "Intelligence Platform API"),
               ("status", .str "running")] }
  else if req.path = "/health" then
    { status := 200
      body := [("status", .str "healthy"),
               ("service", .str "intelligence-platform")] }
  else if req.path = "/api/v1/status" then
    { status := 200
      body := [("api_version", .str "v1"),
               ("status", .str "operational"),
               ("features", .arr ["analytics", "reporting", "intelligence"])] }
  else { status := 404, body := [] }

/-- The `features` list of a response body, empty when absent. -/
def featuresOf (r : Response) : List String :=
  match r.body.lookup "features" with
  | some (.arr xs) => xs
  | _ => []

/-- Modelled from the spec: the app keeps no persisted state, so serving a
trace of requests is the elementwise application of `handle`. -/
def runServer (reqs : List Request) : List Response :=
  reqs.map handle

/-- Concrete requests for the request-independence instance: same path,
different headers / query parameters. -/
def sampleReqA : Request := ⟨"/health", [("X-Debug", "1")], []⟩

def sampleReqB : Request := ⟨"/health", [], [("verbose", "true")]⟩

/-! ## Supporting lemmas -/

lemma lognormalVal_pos (mu sigma : ℚ) (d : Nat) : 0 < lognormalVal mu sigma d := by
  unfold lognormalVal
  have h1 : (0 : ℚ) < 1 + ((d % 997 : Nat) : ℚ) := by positivity
  have h2 : (0 : ℚ) < 1 + mu ^ 2 + sigma ^ 2 := by positivity
  exact mul_pos h1 h2

lemma drawOutcomes_fst_length (ps : List (List ℚ)) (st : NpState) :
    ((drawOutcomes ps st).1).length = ps.length := by
  induction ps generalizing st with
  | nil => rfl
  | cons p rest ih => simp [drawOutcomes, ih]

lemma choiceVal_mem (opts : List String) (d : Nat) (h : opts ≠ []) :
    choiceVal opts d ∈ opts := by
  unfold choiceVal
  have hlen : 0 < opts.length := List.length_pos.mpr h
  have hlt : d % opts.length < opts.length := Nat.mod_lt _ hlen
  rw [List.getD_eq_getElem _ _ hlt]
  exact List.getElem_mem _

lemma natCol_getD_eq (f : Nat → α) (dflt : α) (n i : Nat) (st : NpState) (hi : i < n) :
    (natCol n st f).1.getD i dflt = f (st.stream (st.pos + i)) := by
  show ((List.range n).map fun j => f (st.stream (st.pos + j))).getD i dflt = _
  rw [List.getD_eq_getElem?_getD, List.getElem?_map, List.getElem?_range hi]
  rfl

lemma natCol_getD_mem (opts : List String) (h : opts ≠ []) (n i : Nat) (st : NpState)
    (hi : i < n) : (natCol n st (choiceVal opts)).1.getD i "" ∈ opts := by
  rw [natCol_getD_eq (choiceVal opts) "" n i st hi]
  exact choiceVal_mem _ _ h

lemma natCol_getD_pos (f : Nat → ℚ) (hf : ∀ d, 0 < f d) (n i : Nat) (st : NpState)
    (hi : i < n) : 0 < (natCol n st f).1.getD i 0 := by
  rw [natCol_getD_eq f 0 n i st hi]
  exact hf _

lemma sum_map_div (l : List ℚ) (c : ℚ) : (l.map fun p => p / c).sum = l.sum / c := by
  induction l with
  | nil => simp
  | cons x xs ih => simp [ih, add_div]

lemma normalizeProbs_sum (ps : List ℚ) (h : ps.sum ≠ 0) :
    (normalizeProbs ps).sum = 1 := by
  unfold normalizeProbs
  rw [sum_map_div, div_self h]

/-- The row-level validity of the lines 62-69 probability vector, over exact
arithmetic: the complexity factor is one of 0.8/0.6/0.4/0.2, the efficiency
factor lies in (0,1], so the entries are non-negative, the win entry is at
most 0.56, the loss entry at least 0.14, and after the explicit
normalization of line 74 the vector sums to 1. -/
lemma outcomeProbVector_valid (c : String) (est act : ℚ)
    (hc : c ∈ complexityLevels) (hest : 0 < est) (hact : 0 < act) :
    (∀ p ∈ outcomeProbVector c est act, 0 ≤ p) ∧
    (outcomeProbVector c est act).getD 0 0 ≤ 14/25 ∧
    7/50 ≤ (outcomeProbVector c est act).getD 1 0 ∧
    (normalizeProbs (outcomeProbVector c est act)).sum = 1 := by
  have hef0 : 0 < min 1 (est / act) := lt_min one_pos (div_pos hest hact)
  have hef1 : min 1 (est / act) ≤ 1 := min_le_left _ _
  have hcf : complexityFactor c = 8/10 ∨ complexityFactor c = 6/10 ∨
      complexityFactor c = 4/10 ∨ complexityFactor c = 2/10 := by
    simp only [complexityLevels, List.mem_cons, List.mem_singleton] at hc
    rcases hc with rfl | rfl | rfl | rfl | hc
    · left; rfl
    · right; left; rfl
    · right; right; left; rfl
    · right; right; right; rfl
    · simp at hc
  have hcf0 : 0 < complexityFactor c := by rcases hcf with h | h | h | h <;> rw [h] <;> norm_num
  have hcf1 : complexityFactor c ≤ 8/10 := by rcases hcf with h | h | h | h <;> rw [h] <;> norm_num
  have hwin0 : 0 ≤ complexityFactor c * min 1 (est / act) * (7/10) := by positivity
  have hwin1 : complexityFactor c * min 1 (est / act) * (7/10) ≤ 14/25 := by
    nlinarith [hcf0, hcf1, hef0, hef1]
  have hsum : (outcomeProbVector c est act).sum = 11/10 := by
    show complexityFactor c * min 1 (est / act) * (7/10) +
        (1 - complexityFactor c * min 1 (est / act) * (7/10) - 3/10 +
          (3/10 + (1/20 + (1/20 + 0)))) = 11/10
    ring
  refine ⟨?_, ?_, ?_, ?_⟩
  · intro p hp
    simp only [outcomeProbVector, List.mem_cons, List.mem_singleton] at hp
    rcases hp with rfl | rfl | rfl | rfl | rfl | hp
    · exact hwin0
    · nlinarith [hwin1]
    · norm_num
    · norm_num
    · norm_num
    · simp at hp
  · exact hwin1
  · show 7/50 ≤ 1 - complexityFactor c * min 1 (est / act) * (7/10) - 3/10
    nlinarith [hwin1]
  · exact normalizeProbs_sum _ (by rw [hsum]; norm_num)

lemma assignOutcomes_isSome (ss : List String) (st : NpState) (i : Nat) :
    ((assignOutcomes ss st).1.getD i none).isSome = true → ss.getD i "" = "Closed" := by
  induction ss generalizing st i with
  | nil => intro hx; simp [assignOutcomes] at hx
  | cons s rest ih =>
      intro hx
      by_cases hs : s = "Closed"
      · cases i with
        | zero => simp [hs]
        | succ k =>
            simp only [assignOutcomes, hs, if_pos] at hx
            simp only [List.getD_cons_succ] at hx ⊢
            exact ih _ _ hx
      · cases i with
        | zero => simp [assignOutcomes, hs] at hx
        | succ k =>
            simp only [assignOutcomes, hs, if_neg, ite_false] at hx
            simp only [List.getD_cons_succ] at hx ⊢
            exact ih _ _ hx

lemma assignSettlements_isSome (ps : List (Option String × ℚ)) (st : NpState) (i : Nat) :
    ((assignSettlements ps st).1.getD i none).isSome = true →
    (ps.getD i (none, 0)).1 = some "Settled" := by
  induction ps generalizing st i with
  | nil => intro hx; simp [assignSettlements] at hx
  | cons p rest ih =>
      intro hx
      by_cases hs : p.1 = some "Settled"
      · cases i with
        | zero => simp [hs]
        | succ k =>
            simp only [assignSettlements, hs, if_pos] at hx
            simp only [List.getD_cons_succ] at hx ⊢
            exact ih _ _ hx
      · cases i with
        | zero =>
            simp only [assignSettlements] at hx
            rw [if_neg hs] at hx
            simp at hx
        | succ k =>
            simp only [assignSettlements] at hx
            rw [if_neg hs] at hx
            simp only [List.getD_cons_succ] at hx ⊢
            exact ih _ _ hx

lemma zip_getD_fst {l1 : List (Option String)} {l2 : List ℚ} {i : Nat} {x : String}
    (h : ((List.zip l1 l2).getD i (none, 0)).1 = some x) :
    l1.getD i none = some x := by
  rcases hz : (List.zip l1 l2)[i]? with _ | p
  · rw [List.getD_eq_getElem?_getD, hz] at h
    simp at h
  · rw [List.getD_eq_getElem?_getD, hz] at h
    simp only [Option.getD_some] at h
    have := List.getElem?_zip_eq_some.mp hz
    rw [List.getD_eq_getElem?_getD, this.1]
    simp [h]

lemma resolveName_rfr :
    resolveName "RandomForestRegressor" =
      Except.error (PyErr.nameError "RandomForestRegressor") := rfl

/-! ## Claim theorems -/

/-- Claim C1.  The claim says `train_legal_models` runs to completion on
every `generate_legal_data` frame, fits three estimators, stores them under
the three `self.models` keys, sets `self.is_trained` and returns the results
dictionary.  In fact the function can never return: line 198 evaluates the
free name `RandomForestRegressor`, which line 7 does not import, so execution
raises `NameError` (or fails even earlier) on every input frame and every
platform state — the success branch is unreachable. -/
theorem train_legal_models_always_raises (st : PlatformState) (n : Nat) :
    (trainLegalModels st (generateLegalData n)).isOk = false := by
  simp only [trainLegalModels]
  repeat' split
  all_goals first
    | rfl
    | simp_all [resolveName_rfr]

/-- Claim C2 counterexample.  The third estimator constructed and fitted by
`train_legal_models` (lines 198-201) is `RandomForestRegressor`, which is
neither of the two families the claim allows. -/
theorem train_fit_calls_third_estimator :
    (fitsOf trainStmtOutline).getD 2 "" = "RandomForestRegressor" ∧
    decide ((fitsOf trainStmtOutline).getD 2 "" = "RandomForestClassifier"
        ∨ (fitsOf trainStmtOutline).getD 2 "" = "GradientBoostingRegressor") = false := by
  decide

/-- Claim C2 as amended.  `train_legal_models` constructs and fits exactly
three estimators — `RandomForestClassifier`, `GradientBoostingRegressor` and
`RandomForestRegressor` (the last not imported, hence a `NameError` at
runtime) — with no try/except anywhere in the body. -/
theorem train_fit_calls_exactly_three :
    fitsOf trainStmtOutline =
      ["RandomForestClassifier", "GradientBoostingRegressor", "RandomForestRegressor"] ∧
    trainStmtOutline.contains .tryBlock = false ∧
    moduleScope.contains "RandomForestRegressor" = false := by
  decide

/-- Claim C3.  The three working endpoints each return HTTP 200 with the
fixed JSON fields the tests assert: `/` has message "Intelligence Platform
API" and status "running"; `/health` has status "healthy" and service
"intelligence-platform"; `/api/v1/status` has api_version "v1", status
"operational" and a non-empty features list.  (App modelled from the spec;
`main.py` is absent from the snapshot.) -/
theorem working_endpoints_fixed_payloads :
    (handle ⟨"/", [], []⟩).status = 200 ∧
    (handle ⟨"/", [], []⟩).body.lookup "message" = some (.str "Intelligence Platform API") ∧
    (handle ⟨"/", [], []⟩).body.lookup "status" = some (.str "running") ∧
    (handle ⟨"/health", [], []⟩).status = 200 ∧
    (handle ⟨"/health", [], []⟩).body.lookup "status" = some (.str "healthy") ∧
    (handle ⟨"/health", [], []⟩).body.lookup "service" = some (.str "intelligence-platform") ∧
    (handle ⟨"/api/v1/status", [], []⟩).status = 200 ∧
    (handle ⟨"/api/v1/status", [], []⟩).body.lookup "api_version" = some (.str "v1") ∧
    (handle ⟨"/api/v1/status", [], []⟩).body.lookup "status" = some (.str "operational") ∧
    0 < (featuresOf (handle ⟨"/api/v1/status", [], []⟩)).length := by
  decide

/-- Claim C4.  Every request whose path is not one of the three working
routes receives HTTP 404 — an error status in the tolerated set {404, 501},
never a success — and in particular `GET /invalid-endpoint` returns 404.
(App modelled from the spec; `main.py` is absent from the snapshot.) -/
theorem unknown_path_is_404 (req : Request)
    (h : workingPaths.contains req.path = false) :
    (handle req).status = 404 ∧ (handle req).status ∈ [404, 501] ∧
    (handle ⟨"/invalid-endpoint", [], []⟩).status = 404 := by
  have hmem : req.path ∉ workingPaths := by
    intro hm
    simp [List.elem_eq_mem, hm] at h
  have h1 : req.path ≠ "/" := fun e => hmem (by simp [workingPaths, e])
  have h2 : req.path ≠ "/health" := fun e => hmem (by simp [workingPaths, e])
  have h3 : req.path ≠ "/api/v1/status" := fun e => hmem (by simp [workingPaths, e])
  refine ⟨?_, ?_, by decide⟩
  · simp [handle, h1, h2, h3]
  · simp [handle, h1, h2, h3]

/-- Witness for C4 at the concrete path `/invalid-endpoint`. -/
theorem unknown_path_is_404_witness :
    workingPaths.contains "/invalid-endpoint" = false ∧
    ((handle ⟨"/invalid-endpoint", [], []⟩).status = 404 ∧
     (handle ⟨"/invalid-endpoint", [], []⟩).status ∈ [404, 501] ∧
     (handle ⟨"/invalid-endpoint", [], []⟩).status = 404) :=
  ⟨by decide, unknown_path_is_404 ⟨"/invalid-endpoint", [], []⟩ (by decide)⟩

/-- Claim C5 counterexample.  `generate_contracts_data` with identical
arguments and identical numpy seeding returns different frames at two
different wall-clock readings (2019-01-01 versus 2030-01-01): the `status`
column is all "Active" at the first and all "Expired" at the second, because
line 310 reads `pd.Timestamp.now()`.  So the generator is not a function of
its arguments alone, refuting the claim as stated. -/
theorem contracts_generator_clock_dependent :
    (generateContractsData 2 ⟨npSeed 3, 17897⟩).1.status = ["Active", "Active"] ∧
    (generateContractsData 2 ⟨npSeed 3, 21915⟩).1.status = ["Expired", "Expired"] ∧
    decide ((["Active", "Active"] : List String) = ["Expired", "Expired"]) = false := by
  refine ⟨?_, ?_, by decide⟩ <;>
    norm_num [generateContractsData, natCol, npSeed, numpyStream, choiceNatVal,
      dateRangePeriods, List.range_succ]

/-- Claim C5 as amended.  Each of the five generators reseeds numpy with the
fixed seed 42 before sampling, so two calls with equal arguments return
identical frames whenever the wall-clock readings also agree; the incoming
numpy state never matters.  Without the clock assumption this fails for
`generate_contracts_data` (see its counterexample), whose `status` and
`renewal_required` columns read `pd.Timestamp.now()`. -/
theorem generators_state_independent (g1 g2 : GlobalState)
    (n1 n2 n3 n4 : Nat) (h : g1.clock = g2.clock) :
    (generateLegalDataG n1 g1).1 = (generateLegalDataG n1 g2).1 ∧
    (generateLegalCasesData n2 g1).1 = (generateLegalCasesData n2 g2).1 ∧
    (generateComplianceData g1).1 = (generateComplianceData g2).1 ∧
    (generateVendorData n4 g1).1 = (generateVendorData n4 g2).1 ∧
    (generateContractsData n3 g1).1 = (generateContractsData n3 g2).1 := by
  cases g1 with | mk np1 c1 =>
  cases g2 with | mk np2 c2 =>
  have h2 : c1 = c2 := h
  subst h2
  exact ⟨rfl, rfl, rfl, rfl, rfl⟩

/-- Witness for C5 at two concrete interpreter states with different numpy
streams but equal clocks. -/
theorem generators_state_independent_witness :
    (⟨npSeed 1, 100⟩ : GlobalState).clock = (⟨npSeed 9, 100⟩ : GlobalState).clock ∧
    ((generateLegalDataG 2 ⟨npSeed 1, 100⟩).1 = (generateLegalDataG 2 ⟨npSeed 9, 100⟩).1 ∧
     (generateLegalCasesData 2 ⟨npSeed 1, 100⟩).1 = (generateLegalCasesData 2 ⟨npSeed 9, 100⟩).1 ∧
     (generateComplianceData ⟨npSeed 1, 100⟩).1 = (generateComplianceData ⟨npSeed 9, 100⟩).1 ∧
     (generateVendorData 2 ⟨npSeed 1, 100⟩).1 = (generateVendorData 2 ⟨npSeed 9, 100⟩).1 ∧
     (generateContractsData 2 ⟨npSeed 1, 100⟩).1 = (generateContractsData 2 ⟨npSeed 9, 100⟩).1) :=
  ⟨rfl, generators_state_independent ⟨npSeed 1, 100⟩ ⟨npSeed 9, 100⟩ 2 2 2 2 rfl⟩

/-- Claim C6.  The responses of the working endpoints are independent of the
request details and of all prior requests: in any served trace, two requests
to the same working path receive the same response, namely the fixed payload
of that path.  (App modelled from the spec; `main.py` is absent from the
snapshot.) -/
theorem endpoint_responses_request_independent (reqs : List Request) (i j : Nat)
    (ri rj : Request) (hi : reqs[i]? = some ri) (hj : reqs[j]? = some rj)
    (hpath : ri.path = rj.path) (hwork : workingPaths.contains ri.path = true) :
    (runServer reqs)[i]? = some (handle ri) ∧
    (runServer reqs)[j]? = some (handle rj) ∧
    handle ri = handle rj := by
  refine ⟨?_, ?_, ?_⟩
  · simp [runServer, hi]
  · simp [runServer, hj]
  · cases ri; cases rj
    simp only at hpath
    subst hpath
    rfl

/-- Witness for C6: a two-request trace to `/health` with different headers
and query parameters. -/
theorem endpoint_responses_request_independent_witness :
    ([sampleReqA, sampleReqB] : List Request)[0]? = some sampleReqA ∧
    ([sampleReqA, sampleReqB] : List Request)[1]? = some sampleReqB ∧
    sampleReqA.path = sampleReqB.path ∧
    workingPaths.contains sampleReqA.path = true ∧
    ((runServer [sampleReqA, sampleReqB])[0]? = some (handle sampleReqA) ∧
     (runServer [sampleReqA, sampleReqB])[1]? = some (handle sampleReqB) ∧
     handle sampleReqA = handle sampleReqB) :=
  ⟨rfl, rfl, rfl, by decide,
   endpoint_responses_request_independent [sampleReqA, sampleReqB] 0 1
     sampleReqA sampleReqB rfl rfl rfl (by decide)⟩

/-- Claim C7.  For `n_cases ≥ 1`, `generate_legal_data(n_cases)` returns a
flat in-memory frame of exactly `n_cases` rows whose `case_id` column is the
sequence 1, ..., n_cases; the embedding is a pure function, with no
persistence side effect and no cross-row constraint. -/
theorem generate_legal_data_shape (n : Nat) (_hn : 1 ≤ n) :
    (generateLegalData n).caseId = List.range' 1 n ∧
    (generateLegalData n).caseId.length = n ∧
    (generateLegalData n).practiceArea.length = n ∧
    (generateLegalData n).caseOutcome.length = n ∧
    (generateLegalData n).totalCost.length = n := by
  refine ⟨?_, ?_, ?_, ?_, ?_⟩
  · show (List.range n).map (· + 1) = List.range' 1 n
    rw [List.range'_eq_map_range]
    exact List.map_congr_left fun a _ => Nat.add_comm a 1
  · show ((List.range n).map (· + 1)).length = n
    simp
  · show ((List.range n).map _).length = n
    simp
  · show ((drawOutcomes _ _).1).length = n
    rw [drawOutcomes_fst_length]
    simp [natCol]
  · show (List.map _ _).length = n
    simp [natCol]

/-- Witness for C7 at `n_cases = 3`. -/
theorem generate_legal_data_shape_witness :
    1 ≤ 3 ∧
    ((generateLegalData 3).caseId = List.range' 1 3 ∧
     (generateLegalData 3).caseId.length = 3 ∧
     (generateLegalData 3).practiceArea.length = 3 ∧
     (generateLegalData 3).caseOutcome.length = 3 ∧
     (generateLegalData 3).totalCost.length = 3) :=
  ⟨by decide, generate_legal_data_shape 3 (by decide)⟩

/-- Claim C8.  For every row of the generated data, the outcome probability
vector of lines 62-69 is valid over exact arithmetic: all five entries are
non-negative, the win entry is at most 0.56, the loss entry at least 0.14,
and the explicitly normalized vector sums to 1, so `np.random.choice` never
raises. -/
theorem generate_legal_data_outcome_probs_valid (n i : Nat) (hi : i < n) :
    (∀ p ∈ outcomeProbVector ((generateLegalData n).complexity.getD i "")
        ((generateLegalData n).hoursEstimated.getD i 0)
        ((generateLegalData n).hoursActual.getD i 0), 0 ≤ p) ∧
    (outcomeProbVector ((generateLegalData n).complexity.getD i "")
        ((generateLegalData n).hoursEstimated.getD i 0)
        ((generateLegalData n).hoursActual.getD i 0)).getD 0 0 ≤ 14/25 ∧
    7/50 ≤ (outcomeProbVector ((generateLegalData n).complexity.getD i "")
        ((generateLegalData n).hoursEstimated.getD i 0)
        ((generateLegalData n).hoursActual.getD i 0)).getD 1 0 ∧
    (normalizeProbs (outcomeProbVector ((generateLegalData n).complexity.getD i "")
        ((generateLegalData n).hoursEstimated.getD i 0)
        ((generateLegalData n).hoursActual.getD i 0))).sum = 1 := by
  apply outcomeProbVector_valid
  · exact natCol_getD_mem complexityLevels (by decide) n i _ hi
  · exact natCol_getD_pos _ (fun d => lognormalVal_pos 5 1 d) n i _ hi
  · exact natCol_getD_pos _ (fun d => lognormalVal_pos (26/5) (6/5) d) n i _ hi

/-- Witness for C8 at row 0 of `generate_legal_data(2)`. -/
theorem generate_legal_data_outcome_probs_valid_witness :
    0 < 2 ∧
    ((∀ p ∈ outcomeProbVector ((generateLegalData 2).complexity.getD 0 "")
        ((generateLegalData 2).hoursEstimated.getD 0 0)
        ((generateLegalData 2).hoursActual.getD 0 0), 0 ≤ p) ∧
    (outcomeProbVector ((generateLegalData 2).complexity.getD 0 "")
        ((generateLegalData 2).hoursEstimated.getD 0 0)
        ((generateLegalData 2).hoursActual.getD 0 0)).getD 0 0 ≤ 14/25 ∧
    7/50 ≤ (outcomeProbVector ((generateLegalData 2).complexity.getD 0 "")
        ((generateLegalData 2).hoursEstimated.getD 0 0)
        ((generateLegalData 2).hoursActual.getD 0 0)).getD 1 0 ∧
    (normalizeProbs (outcomeProbVector ((generateLegalData 2).complexity.getD 0 "")
        ((generateLegalData 2).hoursEstimated.getD 0 0)
        ((generateLegalData 2).hoursActual.getD 0 0))).sum = 1) :=
  ⟨by decide, generate_legal_data_outcome_probs_valid 2 0 (by decide)⟩

/-- Claim C9.  For any `review_time_hours` column, `calculate_automation_roi`
satisfies, over exact arithmetic: manual cost is 200 times the column sum,
automated cost is a quarter of that plus 50000, savings is their difference,
the ROI percentage is savings over 50000 times 100, and the time savings is
three quarters of the column sum; the embedding is pure, so the input frame
is untouched. -/
theorem calculate_automation_roi_equations (rt : List ℚ) :
    (calculateAutomationRoi rt).manualCost = 200 * rt.sum ∧
    (calculateAutomationRoi rt).automatedCost
      = (1/4) * (calculateAutomationRoi rt).manualCost + 50000 ∧
    (calculateAutomationRoi rt).annualSavings
      = (calculateAutomationRoi rt).manualCost - (calculateAutomationRoi rt).automatedCost ∧
    (calculateAutomationRoi rt).roiPercentage
      = (calculateAutomationRoi rt).annualSavings / 50000 * 100 ∧
    (calculateAutomationRoi rt).timeSavingsHours = (3/4) * rt.sum := by
  unfold calculateAutomationRoi
  refine ⟨by ring, by ring, by ring, by ring, by ring⟩

/-- Claim C10.  In every frame from `generate_legal_cases_data`, a non-null
`settlement_amount` occurs only in rows whose `outcome` is "Settled", and a
non-null `outcome` occurs only in rows whose `status` is "Closed". -/
theorem cases_data_null_invariants (n : Nat) (g : GlobalState) (i : Nat) :
    ((((generateLegalCasesData n g).1.settlementAmount.getD i none).isSome = true →
       (generateLegalCasesData n g).1.outcome.getD i none = some "Settled") ∧
     (((generateLegalCasesData n g).1.outcome.getD i none).isSome = true →
       (generateLegalCasesData n g).1.status.getD i "" = "Closed")) := by
  constructor
  · intro hx
    have h1 := assignSettlements_isSome _ _ i hx
    exact zip_getD_fst h1
  · intro hx
    exact assignOutcomes_isSome _ _ i hx

/-- Witness for C10: row 4 of `generate_legal_cases_data(20)` has a non-null
settlement amount, and the invariants give outcome "Settled" and status
"Closed" there. -/
theorem cases_data_null_invariants_witness :
    ((generateLegalCasesData 20 ⟨npSeed 0, 0⟩).1.settlementAmount.getD 4 none).isSome = true ∧
    (generateLegalCasesData 20 ⟨npSeed 0, 0⟩).1.outcome.getD 4 none = some "Settled" ∧
    (generateLegalCasesData 20 ⟨npSeed 0, 0⟩).1.status.getD 4 "" = "Closed" :=
  ⟨by decide,
   (cases_data_null_invariants 20 ⟨npSeed 0, 0⟩ 4).1 (by decide),
   (cases_data_null_invariants 20 ⟨npSeed 0, 0⟩ 4).2 (by decide)⟩

end LegalOps
